import Mathlib

/-
Verification of the deterministic routing, validation, prompt-building and
response-classification logic of the adk-alteryx demo application.

Python strings are embedded as lists of characters.  The Python methods
str.strip, str.upper, str.lower, str.startswith and str.endswith are embedded
as the corresponding list functions below.  The external generative-model
gateway is embedded as a function from the prompt to either a completion
string or an error message (an exception message); every embedded operation
additionally returns the list of prompts it sent to the gateway, so that
claims about the gateway never being consulted, or being consulted exactly
once, can be stated directly.
-/

namespace AdkAlteryx

/-- A Python string, embedded as its list of characters. -/
abbrev Str := List Char

/-- Left part of Python str.strip: drop leading whitespace. -/
def stripLead (s : Str) : Str := s.dropWhile Char.isWhitespace

/-- Right part of Python str.strip: drop trailing whitespace. -/
def stripTrail (s : Str) : Str := (s.reverse.dropWhile Char.isWhitespace).reverse

/-- Embedding of Python str.strip: drop leading and trailing whitespace. -/
def strip (s : Str) : Str := stripTrail (stripLead s)

/-- Embedding of Python str.upper on the ASCII fragment used by the code. -/
def upper (s : Str) : Str := s.map Char.toUpper

/-- Embedding of Python str.lower on the ASCII fragment used by the code. -/
def lower (s : Str) : Str := s.map Char.toLower

/-- Embedding of Python str.startswith with a tuple argument: does any of the
given patterns occur as a prefix of the string. -/
def startsWithAny (ps : List Str) (s : Str) : Bool := ps.any (fun p => p.isPrefixOf s)

/-- Substring occurrence test, embedding a literal (no metacharacter)
re.search as used with the AlteryxWorkflow root-tag pattern. -/
def containsSub (pat : Str) : Str → Bool
  | [] => pat.isEmpty
  | c :: rest => pat.isPrefixOf (c :: rest) || containsSub pat rest

/-- MainAgent.is_xml from src/agents/main_agent.py: the trimmed input starts
with a left angle bracket and ends with a right angle bracket. -/
def is_xml (input_str : Str) : Bool :=
  (("<".data).isPrefixOf (strip input_str)) && ((">".data).isSuffixOf (strip input_str))

/-- The heuristic check at the top of process_alteryx_xml_to_sql in
src/main2.py: the ValueError is raised when the trimmed input does not start
with a left angle bracket or does not end with a right angle bracket, so the
check passes exactly when the negation of that disjunction holds. -/
def xmlHeuristicOk (xml_code : Str) : Bool :=
  !(!(("<".data).isPrefixOf (strip xml_code)) || !((">".data).isSuffixOf (strip xml_code)))

/-- The classification predicate as the specification words it: the trimmed
form of the input starts with a left angle bracket and ends with a right
angle bracket.  Stated separately from the source functions so that both
code variants can be compared against it. -/
def specLooksLikeXml (s : Str) : Bool :=
  (("<".data).isPrefixOf (strip s)) && ((">".data).isSuffixOf (strip s))

/-- C1: both heuristic classifiers, MainAgent.is_xml and the inline check of
the main2 XMLConverterAgent, classify a string as XML-like exactly when its
trimmed form starts with a left angle bracket and ends with a right angle
bracket, and the empty string is classified not-xml. -/
theorem C1_xml_classifier (s : Str) :
    is_xml s = specLooksLikeXml s
  ∧ xmlHeuristicOk s = specLooksLikeXml s
  ∧ is_xml [] = false := by
  refine ⟨rfl, ?_, by decide⟩
  unfold xmlHeuristicOk specLooksLikeXml
  cases (("<".data).isPrefixOf (strip s)) <;> cases ((">".data).isSuffixOf (strip s)) <;> rfl

/-- The SQL keyword tuple of the basic classifier in
src/agents/xml_converter_agent.py. -/
def sqlKeywordsV1 : List Str := [("SELECT".data), ("CREATE".data), ("INSERT".data), ("MERGE".data)]

/-- The SQL keyword tuple of the stricter classifier in src/main2.py, which
additionally accepts a conversion-error marker. -/
def sqlKeywordsV2 : List Str :=
  [("SELECT".data), ("CREATE".data), ("INSERT".data), ("MERGE".data), ("CONVERSION ERROR:".data)]

/-- The fixed leading part of the failure message of the basic classifier in
src/agents/xml_converter_agent.py. -/
def failPreV1 : Str :=
  ("Could not generate valid BigQuery SQL from the provided Alteryx XML. Please ensure it\x27s a convertible Alteryx workflow. LLM\x27s response: ").data

/-- The fixed leading part of the failure message of the stricter classifier
in src/main2.py. -/
def failPreV2 : Str :=
  ("Conversion Error: The AI model could not generate valid BigQuery SQL from the provided Alteryx XML. Please review the XML. Raw AI response: ").data

/-- Response classifier of src/agents/xml_converter_agent.py: strip the
completion, accept it when its uppercased form starts with one of the SQL
keywords, otherwise wrap it into the failure message. -/
def classifyV1 (completion : Str) : Str :=
  let sql_result := strip completion
  if startsWithAny sqlKeywordsV1 (upper sql_result) then sql_result
  else failPreV1 ++ sql_result

/-- Response classifier of src/main2.py: same shape, with the keyword set
extended by the conversion-error marker and a different failure message. -/
def classifyV2 (completion : Str) : Str :=
  let sql_result := strip completion
  if startsWithAny sqlKeywordsV2 (upper sql_result) then sql_result
  else failPreV2 ++ sql_result

theorem head_dropWhile_ws (l : Str) (c : Char)
    (h : (l.dropWhile Char.isWhitespace).head? = some c) : Char.isWhitespace c = false := by
  induction l with
  | nil => simp at h
  | cons a t ih =>
    by_cases ha : Char.isWhitespace a
    · rw [List.dropWhile_cons_of_pos ha] at h
      exact ih h
    · rw [List.dropWhile_cons_of_neg ha] at h
      simp at h
      rw [← h]
      exact Bool.eq_false_iff.mpr ha

theorem dropWhile_eq_self_of_head (l : Str) (c : Char) (h : l.head? = some c)
    (hc : Char.isWhitespace c = false) : l.dropWhile Char.isWhitespace = l := by
  cases l with
  | nil => simp at h
  | cons a t =>
    simp at h
    rw [← h] at hc
    exact List.dropWhile_cons_of_neg (Bool.eq_false_iff.mp hc)

theorem stripTrail_getLast (s : Str) (c : Char) (h : (stripTrail s).getLast? = some c) :
    Char.isWhitespace c = false := by
  unfold stripTrail at h
  rw [List.getLast?_reverse] at h
  exact head_dropWhile_ws _ _ h

theorem stripTrail_eq_self (s : Str) (c : Char) (h : s.getLast? = some c)
    (hc : Char.isWhitespace c = false) : stripTrail s = s := by
  unfold stripTrail
  have h1 : s.reverse.head? = some c := by rw [List.head?_reverse]; exact h
  rw [dropWhile_eq_self_of_head s.reverse c h1 hc, List.reverse_reverse]

theorem strip_eq_self (s : Str) (a b : Char) (hh : s.head? = some a)
    (ha : Char.isWhitespace a = false) (hl : s.getLast? = some b)
    (hb : Char.isWhitespace b = false) : strip s = s := by
  unfold strip stripLead
  rw [dropWhile_eq_self_of_head s a hh ha]
  exact stripTrail_eq_self s b hl hb

/-- A nonempty fixed message whose head is not whitespace, followed by the
stripped form of a string, can never reproduce that string: the wrapped
failure responses of the classifiers always differ from the raw input. -/
theorem msg_append_strip_ne (M c : Str) (a : Char) (hM : M.head? = some a)
    (ha : Char.isWhitespace a = false) (hsM : strip M ≠ []) : M ++ strip c ≠ c := by
  intro hEq
  have hMne : M ≠ [] := by
    intro h0
    rw [h0] at hM
    simp at hM
  by_cases hu : strip c = []
  · rw [hu, List.append_nil] at hEq
    rw [hEq] at hsM
    exact hsM hu
  · obtain ⟨b, hb⟩ : ∃ b, (strip c).getLast? = some b := by
      cases hg : (strip c).getLast? with
      | some b => exact ⟨b, rfl⟩
      | none => exact absurd (List.getLast?_eq_none_iff.mp hg) hu
    have hbws : Char.isWhitespace b = false := stripTrail_getLast (stripLead c) b hb
    have hch : c.head? = some a := by
      rw [← hEq, List.head?_append]
      cases M with
      | nil => exact absurd rfl hMne
      | cons m ms =>
        simp at hM ⊢
        exact hM
    have hcl : c.getLast? = some b := by
      rw [← hEq, List.getLast?_append]
      rw [hb]
      rfl
    have hsc : strip c = c := strip_eq_self c a b hch ha hcl hbws
    rw [hsc] at hEq
    have : M.length + c.length = c.length := by
      have := congrArg List.length hEq
      simpa using this
    have hM0 : M.length = 0 := by omega
    exact hMne (List.length_eq_zero.mp hM0)

/-- C2 counterexample: the completion with a leading blank whose trimmed
uppercased form begins with SELECT is not returned unchanged; the classifier
returns its stripped form instead. -/
theorem C2_counterexample :
    startsWithAny sqlKeywordsV1 (upper (strip (" SELECT 1".data))) = true
  ∧ classifyV1 (" SELECT 1".data) ≠ (" SELECT 1".data)
  ∧ classifyV1 (" SELECT 1".data) = ("SELECT 1".data) := by decide

/-- C2 amended: for a completion whose trimmed uppercased form begins with
one of the SQL keywords (or, in the stricter variant, the conversion-error
marker) the classifier returns the trimmed completion, hence the completion
unchanged exactly when it carries no surrounding whitespace; any other
completion is turned into the fixed failure message wrapping the trimmed
completion text, and that response is never equal to the original
completion. -/
theorem C2_amended_classifier (c : Str) :
    (startsWithAny sqlKeywordsV1 (upper (strip c)) = true → classifyV1 c = strip c)
  ∧ (startsWithAny sqlKeywordsV1 (upper (strip c)) = false →
      classifyV1 c = failPreV1 ++ strip c ∧ classifyV1 c ≠ c)
  ∧ (startsWithAny sqlKeywordsV2 (upper (strip c)) = true → classifyV2 c = strip c)
  ∧ (startsWithAny sqlKeywordsV2 (upper (strip c)) = false →
      classifyV2 c = failPreV2 ++ strip c ∧ classifyV2 c ≠ c) := by
  refine ⟨fun h => ?_, fun h => ⟨?_, ?_⟩, fun h => ?_, fun h => ⟨?_, ?_⟩⟩
  · simp [classifyV1, h]
  · simp [classifyV1, *]
  · have he : classifyV1 c = failPreV1 ++ strip c := by simp [classifyV1, *]
    rw [he]
    exact msg_append_strip_ne failPreV1 c 'C' (by decide) (by decide) (by decide)
  · simp [classifyV2, h]
  · simp [classifyV2, *]
  · have he : classifyV2 c = failPreV2 ++ strip c := by simp [classifyV2, *]
    rw [he]
    exact msg_append_strip_ne failPreV2 c 'C' (by decide) (by decide) (by decide)

/-- C2 witness: the amended classifier behaviour at concrete completions. -/
theorem C2_amended_classifier_witness :
    classifyV1 ("select 2".data) = ("select 2".data)
  ∧ classifyV2 ("hello".data) ≠ ("hello".data) := by
  constructor
  · have h := (C2_amended_classifier ("select 2".data)).1 (by decide)
    rw [h]
    decide
  · exact ((C2_amended_classifier ("hello".data)).2.2.2 (by decide)).2

/-- Result dictionary of ValidatorAgent.validate, embedded as a record whose
optional fields model the presence or absence of the dictionary keys.  The
parsed-tree type is a parameter because the xmltodict library producing it is
external to the repository. -/
structure ValidationResult (α : Type) where
  status : Str
  cleaned_xml : Option α
  error : Option Str

/-- ValidatorAgent.validate from src/agents/validator_agent.py: call the
external parser inside a try block; on success return a valid result holding
the parsed value, on any parse exception return an invalid result holding
the exception message.  The external xmltodict.parse call is embedded as the
parseLib argument returning either a parsed value or an exception message. -/
def validate {α : Type} (parseLib : Str → Except Str α) (xml_str : Str) : ValidationResult α :=
  match parseLib xml_str with
  | Except.ok parsed => { status := ("valid").data, cleaned_xml := some parsed, error := none }
  | Except.error e => { status := ("invalid").data, cleaned_xml := none, error := some e }

/-- The newline-plus-indentation separator of the triple-quoted prompt
strings. -/
def nlIndent : Str := ("\n        ").data

/-- The shared opening lines of both conversion prompts (the two source
files duplicate this text verbatim). -/
def promptHead : Str :=
  ("\n        You are an expert Alteryx and BigQuery SQL developer.\n        Your task is to convert the provided Alteryx XML backend code into a functional BigQuery Standard SQL query.\n        Focus on the main data flow and transformations (e.g., Input Data, Select, Filter, Join, Union, Output Data).\n        Infer table names, column names, and data types where necessary from the context of the Alteryx XML.\n        Assume the source tables for Alteryx Input Data tools exist in BigQuery.\n        \n        ").data

/-- Introduction of the XML payload in the basic prompt of
src/agents/xml_converter_agent.py. -/
def promptSnipV1 : Str :=
  ("Here is the Alteryx XML snippet (or its simplified representation):\n        \n        ```xml\n        ").data

/-- Text between the XML payload and the closing instructions in the basic
prompt. -/
def promptMidV1 : Str :=
  ("\n        ```\n        \n        Based on this Alteryx XML, generate the corresponding BigQuery SQL.\n        If the XML represents multiple distinct data flows, generate one comprehensive SQL query or multiple queries as appropriate.\n        ").data

/-- The code-only instruction sentence of the basic prompt. -/
def codeOnlyV1 : Str :=
  ("Prioritize clarity and correctness. Do NOT include any explanations, just the SQL code.").data

/-- The error-marker instruction sentence of the basic prompt. -/
def errMarkerV1 : Str :=
  ("If the XML is clearly not a valid Alteryx workflow or too complex to convert, provide a concise error message instead of SQL.").data

/-- Introduction of the XML payload in the main2 prompt. -/
def promptSnipM2 : Str :=
  ("Here is the Alteryx XML backend code:\n        \n        ```xml\n        ").data

/-- Text between the XML payload and the closing instructions in the main2
prompt. -/
def promptMidM2 : Str :=
  ("\n        ```\n        \n        Based on this Alteryx XML, generate the corresponding BigQuery SQL.\n        ").data

/-- The code-only instruction sentence of the main2 prompt. -/
def codeOnlyM2 : Str :=
  ("Do NOT include any explanations, preambles, or conversational text. Just provide the SQL code.").data

/-- The error-marker instruction of the main2 prompt, asking for a response
starting with the conversion-error marker. -/
def errMarkerM2 : Str :=
  ("If the XML is clearly not a valid Alteryx workflow or too complex/malformed to convert, \n        provide a concise error message starting with \"Conversion Error:\" instead of SQL.").data

/-- Prompt builder of _generate_sql_from_xml in
src/agents/xml_converter_agent.py.  The prompt embeds the original XML text;
the simplified tree rendering is computed by the source but never inserted
into the prompt, so the prompt depends on the original text alone. -/
def promptV1 (original_xml : Str) : Str :=
  promptHead ++ promptSnipV1 ++ original_xml ++ promptMidV1
    ++ codeOnlyV1 ++ nlIndent ++ errMarkerV1 ++ nlIndent

/-- Prompt builder inside process_alteryx_xml_to_sql in src/main2.py. -/
def promptMain2 (xml_code : Str) : Str :=
  promptHead ++ promptSnipM2 ++ xml_code ++ promptMidM2
    ++ codeOnlyM2 ++ nlIndent ++ errMarkerM2 ++ nlIndent

/-- Leading part of the parse-failure response of the converter in
src/agents/xml_converter_agent.py; the parser exception message is appended
to it. -/
def parseErrPreV1 : Str :=
  ("Error: Invalid Alteryx XML format. Please check your XML syntax. Details: ").data

/-- Leading part of the gateway-failure response of the converter in
src/agents/xml_converter_agent.py. -/
def llmErrPreV1 : Str :=
  ("Error: Failed to generate BigQuery SQL using the AI model. Details: ").data

/-- process_alteryx_xml_to_sql of src/agents/xml_converter_agent.py.  The
strict ET.fromstring parse of the external library is the parseET argument;
the generative model call is the gateway argument.  The second component of
the result lists the prompts sent to the gateway.  Parse failure and gateway
failure are both converted to error strings, never propagated. -/
def process_alteryx_xml_to_sql_v1 {α : Type} (parseET : Str → Except Str α)
    (gateway : Str → Except Str Str) (xml_code : Str) : Str × List Str :=
  match parseET xml_code with
  | Except.error e => (parseErrPreV1 ++ e, [])
  | Except.ok _ =>
    match gateway (promptV1 xml_code) with
    | Except.error e => (llmErrPreV1 ++ e, [promptV1 xml_code])
    | Except.ok txt => (classifyV1 txt, [promptV1 xml_code])

/-- The full invalid-format response of main2, whose details part is the
message of the ValueError raised by the heuristic check. -/
def errInvalidM2 : Str :=
  ("Error: Invalid Alteryx XML format. Please check your XML syntax. Details: Input does not appear to be valid XML.").data

/-- Leading part of the gateway-failure response of the main2 converter. -/
def llmErrPreM2 : Str :=
  ("Conversion Error: Failed to generate BigQuery SQL using the AI model. Details: ").data

/-- process_alteryx_xml_to_sql of src/main2.py: the heuristic check raises a
ValueError that the surrounding try block converts to the invalid-format
response; otherwise the gateway is called once and its completion classified
by the stricter classifier. -/
def process_alteryx_xml_to_sql_main2 (gateway : Str → Except Str Str) (xml_code : Str) :
    Str × List Str :=
  if xmlHeuristicOk xml_code then
    match gateway (promptMain2 xml_code) with
    | Except.error e => (llmErrPreM2 ++ e, [promptMain2 xml_code])
    | Except.ok txt => (classifyV2 txt, [promptMain2 xml_code])
  else (errInvalidM2, [])

/-- The root-tag pattern of the case-insensitive re.search in
ChatbotAgent.run of src/main2.py. -/
def alteryxTag : Str := ("<AlteryxWorkflow>").data

/-- The case-insensitive literal search re.search performs in
ChatbotAgent.run. -/
def detectAlteryxWorkflow (user_message : Str) : Bool :=
  containsSub (lower alteryxTag) (lower user_message)

/-- Leading part of the markdown wrapper the main2 router puts around the
conversion result. -/
def mdPre : Str := ("XML conversion initiated. Result:\n```sql\n").data

/-- Trailing part of the markdown wrapper. -/
def mdPost : Str := ("\n```").data

/-- The canned chat-failure response of ChatbotAgent.run. -/
def chatTroubleMsg : Str := ("Sorry, I\x27m having trouble responding right now.").data

/-- ChatbotAgent.run of src/main2.py: messages matching the AlteryxWorkflow
pattern go through the conversion tool and the result is embedded in the
markdown wrapper; every other message is sent verbatim to the gateway and
the stripped completion returned, a gateway failure becoming the canned
response.  The in-process tool call never raises because the converter
returns error strings, so the except branch around the tool call is dead. -/
def chatbotRun (gateway : Str → Except Str Str) (user_message : Str) : Str × List Str :=
  if detectAlteryxWorkflow user_message then
    (mdPre ++ (process_alteryx_xml_to_sql_main2 gateway user_message).1 ++ mdPost,
     (process_alteryx_xml_to_sql_main2 gateway user_message).2)
  else
    match gateway user_message with
    | Except.ok t => (strip t, [user_message])
    | Except.error _ => (chatTroubleMsg, [user_message])

/-- The canned chat response of MainAgent.handle_input. -/
def chatGreeting : Str :=
  ("Hello! I can answer your questions or help convert Alteryx XML to BigQuery SQL.").data

/-- The invalid-XML response of MainAgent.handle_input. -/
def invalidXmlMsg : Str := ("Invalid XML format. Please check the structure.").data

/-- MainAgent.handle_input of src/agents/main_agent.py.  The SQLGeneratorAgent
module is not part of the source tree, so its generate_sql method is a
function parameter; the xmltodict parser behind the validator is likewise a
parameter.  The none branch of the match is unreachable because validate
couples a valid status with a present cleaned_xml field. -/
def handle_input {α : Type} (parseLib : Str → Except Str α) (generate_sql : α → Str)
    (input_text : Str) : Str :=
  if is_xml input_text then
    if (validate parseLib input_text).status = ("valid").data then
      match (validate parseLib input_text).cleaned_xml with
      | some cleaned => generate_sql cleaned
      | none => invalidXmlMsg
    else invalidXmlMsg
  else chatGreeting

/-- C3: whenever the strict parse fails with a message, the validator
returns an invalid result forwarding the message verbatim in its error
field, the error field is non-empty whenever the message is, and the
strict-parse converter returns its parse-error response built from the same
message without consulting the gateway; both are total functions, so no
exception propagates. -/
theorem C3_strict_parse_failure {α : Type} (parseLib : Str → Except Str α)
    (gateway : Str → Except Str Str) (s e : Str) (hp : parseLib s = Except.error e) :
    validate parseLib s
      = { status := ("invalid").data, cleaned_xml := none, error := some e }
  ∧ (e ≠ [] → (validate parseLib s).error.getD [] ≠ [])
  ∧ (process_alteryx_xml_to_sql_v1 parseLib gateway s).1 = parseErrPreV1 ++ e
  ∧ (process_alteryx_xml_to_sql_v1 parseLib gateway s).2 = [] := by
  refine ⟨?_, ?_, ?_, ?_⟩
  · simp [validate, hp]
  · intro hne
    simp [validate, hp]
    exact hne
  · simp [process_alteryx_xml_to_sql_v1, hp]
  · simp [process_alteryx_xml_to_sql_v1, hp]

/-- C3 witness: a concrete failing parser on a concrete input. -/
theorem C3_strict_parse_failure_witness :
    validate (fun _ => (Except.error (("syntax error: line 1, column 0").data) : Except Str Unit))
        (("<broken").data)
      = { status := ("invalid").data, cleaned_xml := none,
          error := some (("syntax error: line 1, column 0").data) } :=
  (C3_strict_parse_failure (fun _ => (Except.error (("syntax error: line 1, column 0").data) : Except Str Unit))
    (fun _ => Except.ok []) (("<broken").data) (("syntax error: line 1, column 0").data) rfl).1

/-- C4 counterexample: the chat pipeline of the main2 router does not return
the gateway completion as the response; a completion carrying a trailing
newline is returned stripped. -/
theorem C4_counterexample :
    detectAlteryxWorkflow (("Hello").data) = false
  ∧ (chatbotRun (fun _ => Except.ok (("Hi! How can I help?\n").data)) (("Hello").data)).1
      ≠ (("Hi! How can I help?\n").data) := by decide

/-- C4 amended: the main2 router runs the XML pipeline exactly when the
case-insensitive AlteryxWorkflow pattern matches and otherwise forwards the
raw message directly to the gateway, returning the completion stripped of
surrounding whitespace; MainAgent routes to its XML pipeline exactly when
is_xml holds, its chat path returning a fixed greeting. -/
theorem C4_amended_router {α : Type} (parseLib : Str → Except Str α) (generate_sql : α → Str)
    (gateway : Str → Except Str Str) (msg m2 t : Str) (tree : α) (e : Str) :
    (detectAlteryxWorkflow msg = true →
      chatbotRun gateway msg
        = (mdPre ++ (process_alteryx_xml_to_sql_main2 gateway msg).1 ++ mdPost,
           (process_alteryx_xml_to_sql_main2 gateway msg).2))
  ∧ (detectAlteryxWorkflow msg = false → gateway msg = Except.ok t →
      chatbotRun gateway msg = (strip t, [msg]))
  ∧ (is_xml m2 = false → handle_input parseLib generate_sql m2 = chatGreeting)
  ∧ (is_xml m2 = true → parseLib m2 = Except.ok tree →
      handle_input parseLib generate_sql m2 = generate_sql tree)
  ∧ (is_xml m2 = true → parseLib m2 = Except.error e →
      handle_input parseLib generate_sql m2 = invalidXmlMsg) := by
  refine ⟨fun h => ?_, fun h hg => ?_, fun h => ?_, fun h hp => ?_, fun h hp => ?_⟩
  · simp [chatbotRun, h]
  · simp [chatbotRun, h, hg]
  · simp [handle_input, h]
  · simp [handle_input, h, validate, hp]
  · simp [handle_input, h, validate, hp]

/-- C4 witness: the chat branch at a concrete message and gateway, and the
MainAgent branches at concrete inputs. -/
theorem C4_amended_router_witness :
    chatbotRun (fun _ => Except.ok (("Hi!").data)) (("Hello").data)
      = (("Hi!").data, [("Hello").data])
  ∧ handle_input (fun _ => (Except.ok () : Except Str Unit)) (fun _ => ("SELECT 1").data)
      (("hi").data) = chatGreeting := by
  constructor
  · have h := (C4_amended_router (fun _ => (Except.ok () : Except Str Unit))
      (fun _ => ("SELECT 1").data) (fun _ => Except.ok (("Hi!").data))
      (("Hello").data) (("hi").data) (("Hi!").data) () []).2.1 (by decide) rfl
    rw [h]
    decide
  · exact (C4_amended_router (fun _ => (Except.ok () : Except Str Unit))
      (fun _ => ("SELECT 1").data) (fun _ => Except.ok (("Hi!").data))
      (("Hello").data) (("hi").data) (("Hi!").data) () []).2.2.1 (by decide)

/-- C5: an input failing the validation step produces the invalid-format
error response and an empty gateway trace, in the main2 pipeline for a
failing heuristic and in the strict pipeline for a failing parse. -/
theorem C5_no_gateway_on_invalid {α : Type} (parseLib : Str → Except Str α)
    (gateway : Str → Except Str Str) (xml e : Str) :
    (xmlHeuristicOk xml = false →
      process_alteryx_xml_to_sql_main2 gateway xml = (errInvalidM2, []))
  ∧ (parseLib xml = Except.error e →
      process_alteryx_xml_to_sql_v1 parseLib gateway xml = (parseErrPreV1 ++ e, [])) := by
  constructor
  · intro h
    simp [process_alteryx_xml_to_sql_main2, h]
  · intro h
    simp [process_alteryx_xml_to_sql_v1, h]

/-- C5 witness: the scenario input that fails both validators. -/
theorem C5_no_gateway_on_invalid_witness :
    process_alteryx_xml_to_sql_main2 (fun _ => Except.ok (("SELECT 1").data)) (("<broken").data)
      = (errInvalidM2, [])
  ∧ process_alteryx_xml_to_sql_v1
      (fun _ => (Except.error (("syntax error").data) : Except Str Unit))
      (fun _ => Except.ok (("SELECT 1").data)) (("<broken").data)
      = (parseErrPreV1 ++ ("syntax error").data, []) :=
  ⟨(C5_no_gateway_on_invalid (fun _ => (Except.ok () : Except Str Unit))
      (fun _ => Except.ok (("SELECT 1").data)) (("<broken").data) []).1 (by decide),
   (C5_no_gateway_on_invalid (fun _ => (Except.error (("syntax error").data) : Except Str Unit))
      (fun _ => Except.ok (("SELECT 1").data)) (("<broken").data) (("syntax error").data)).2 rfl⟩

/-- The deterministic mocked gateway of the scenario for C6. -/
def gMockC6 : Str → Except Str Str := fun _ => Except.ok (("SELECT * FROM t").data)

/-- The well-formed workflow input of the scenario for C6. -/
def wfInput : Str := ("<AlteryxWorkflow><Nodes/></AlteryxWorkflow>").data

/-- C6 counterexample: on the scenario input with the gateway returning the
scenario SQL, the main2 router response is not that SQL string; the SQL is
embedded in the markdown wrapper instead. -/
theorem C6_counterexample :
    detectAlteryxWorkflow wfInput = true
  ∧ (chatbotRun gMockC6 wfInput).1 ≠ (("SELECT * FROM t").data) := by decide

/-- C6 amended: the converter returns the gateway SQL unmodified, and the
router response is that SQL embedded in the fixed markdown wrapper. -/
theorem C6_amended_scenario :
    (process_alteryx_xml_to_sql_main2 gMockC6 wfInput).1 = (("SELECT * FROM t").data)
  ∧ (chatbotRun gMockC6 wfInput).1 = mdPre ++ (("SELECT * FROM t").data) ++ mdPost := by decide

/-- C7: every gateway failure is converted into an error-string response,
in the chat pipeline, the main2 XML pipeline and the strict XML pipeline;
no exception propagates because every embedded operation is total, and no
step is retried because each request sends at most one prompt to the
gateway. -/
theorem C7_exceptions_converted {α : Type} (parseLib : Str → Except Str α)
    (gateway : Str → Except Str Str) (msg xml e : Str) (tree : α) :
    (detectAlteryxWorkflow msg = false → gateway msg = Except.error e →
      (chatbotRun gateway msg).1 = chatTroubleMsg)
  ∧ (detectAlteryxWorkflow msg = true → xmlHeuristicOk msg = true →
      gateway (promptMain2 msg) = Except.error e →
      (chatbotRun gateway msg).1 = mdPre ++ (llmErrPreM2 ++ e) ++ mdPost)
  ∧ (parseLib xml = Except.ok tree → gateway (promptV1 xml) = Except.error e →
      (process_alteryx_xml_to_sql_v1 parseLib gateway xml).1 = llmErrPreV1 ++ e)
  ∧ (chatbotRun gateway msg).2.length ≤ 1
  ∧ (process_alteryx_xml_to_sql_v1 parseLib gateway xml).2.length ≤ 1 := by
  refine ⟨fun h hg => ?_, fun h hh hg => ?_, fun hp hg => ?_, ?_, ?_⟩
  · simp [chatbotRun, h, hg]
  · simp [chatbotRun, h, process_alteryx_xml_to_sql_main2, hh, hg]
  · simp [process_alteryx_xml_to_sql_v1, hp, hg]
  · by_cases h : detectAlteryxWorkflow msg = true
    · by_cases hh : xmlHeuristicOk msg = true
      · cases hg : gateway (promptMain2 msg) <;>
          simp [chatbotRun, h, process_alteryx_xml_to_sql_main2, hh, hg]
      · simp [chatbotRun, h, process_alteryx_xml_to_sql_main2, hh]
    · cases hg : gateway msg <;> simp [chatbotRun, h, hg]
  · cases hp : parseLib xml with
    | error e2 => simp [process_alteryx_xml_to_sql_v1, hp]
    | ok t2 =>
      cases hg : gateway (promptV1 xml) <;> simp [process_alteryx_xml_to_sql_v1, hp, hg]

/-- C7 witness: a failing gateway at a concrete chat message and a concrete
strict-pipeline input. -/
theorem C7_exceptions_converted_witness :
    (chatbotRun (fun _ => Except.error (("quota exceeded").data)) (("Hello").data)).1
      = chatTroubleMsg
  ∧ (process_alteryx_xml_to_sql_v1 (fun _ => (Except.ok () : Except Str Unit))
      (fun _ => Except.error (("quota exceeded").data)) (("<a/>").data)).1
      = llmErrPreV1 ++ ("quota exceeded").data :=
  ⟨(C7_exceptions_converted (fun _ => (Except.ok () : Except Str Unit))
      (fun _ => Except.error (("quota exceeded").data)) (("Hello").data) (("<a/>").data)
      (("quota exceeded").data) ()).1 (by decide) rfl,
   (C7_exceptions_converted (fun _ => (Except.ok () : Except Str Unit))
      (fun _ => Except.error (("quota exceeded").data)) (("Hello").data) (("<a/>").data)
      (("quota exceeded").data) ()).2.2.1 rfl rfl⟩

/-- C8: the main2 router output is a deterministic function of the input
text and the gateway replies on the prompts it actually sends: two gateways
agreeing on the traced prompts produce identical router outputs, so two runs
with an identical deterministic gateway produce identical outputs. -/
theorem C8_deterministic_router (g1 g2 : Str → Except Str Str) (msg : Str)
    (h : ∀ q, q ∈ (chatbotRun g1 msg).2 → g1 q = g2 q) :
    chatbotRun g1 msg = chatbotRun g2 msg := by
  by_cases hd : detectAlteryxWorkflow msg = true
  · by_cases hh : xmlHeuristicOk msg = true
    · have hq : g1 (promptMain2 msg) = g2 (promptMain2 msg) := by
        apply h
        cases hg : g1 (promptMain2 msg) <;>
          simp [chatbotRun, hd, process_alteryx_xml_to_sql_main2, hh, hg]
      simp [chatbotRun, hd, process_alteryx_xml_to_sql_main2, hh, hq]
    · simp [chatbotRun, hd, process_alteryx_xml_to_sql_main2, hh]
  · have hq : g1 msg = g2 msg := by
      apply h
      cases hg : g1 msg <;> simp [chatbotRun, hd, hg]
    simp [chatbotRun, hd, hq]

/-- C8 witness: two textually distinct but extensionally agreeing gateways
at a concrete message. -/
theorem C8_deterministic_router_witness :
    chatbotRun (fun _ => Except.ok (("Hi!").data)) (("Hello").data)
      = chatbotRun (fun q => Except.ok ((("Hi!").data) ++ q.take 0)) (("Hello").data) :=
  C8_deterministic_router (fun _ => Except.ok (("Hi!").data))
    (fun q => Except.ok ((("Hi!").data) ++ q.take 0)) (("Hello").data)
    (fun q _ => by simp)

/-- C10: ValidatorAgent.validate is a total function whose status is always
the valid or the invalid string, carrying a parsed cleaned_xml value exactly
when the status is valid and an error message exactly when the status is
invalid. -/
theorem C10_validate_total {α : Type} (parseLib : Str → Except Str α) (s : Str) :
    ((validate parseLib s).status = ("valid").data
      ∨ (validate parseLib s).status = ("invalid").data)
  ∧ ((validate parseLib s).cleaned_xml.isSome
      ↔ (validate parseLib s).status = ("valid").data)
  ∧ ((validate parseLib s).error.isSome
      ↔ (validate parseLib s).status = ("invalid").data) := by
  cases hp : parseLib s with
  | ok t => refine ⟨Or.inl ?_, ?_, ?_⟩ <;> simp [validate, hp]
  | error e => refine ⟨Or.inr ?_, ?_, ?_⟩ <;> simp [validate, hp]

/-- An ET.Element of the external xml.etree library as the prompt builder
consumes it: a tag, the Python repr of the attribute dictionary when that
dictionary is nonempty, the optional text, and the child elements.  The
attribute repr is abstracted to a pre-rendered string because the dictionary
and its repr belong to the external library. -/
inductive ETElem : Type where
  | mk : Str → Option Str → Option Str → List ETElem → ETElem

/-- The tag of an element. -/
def ETElem.tag : ETElem → Str
  | ETElem.mk t _ _ _ => t

/-- The rendered attribute dictionary of an element, present exactly when
the dictionary is nonempty. -/
def ETElem.attribRendered : ETElem → Option Str
  | ETElem.mk _ a _ _ => a

/-- The text of an element. -/
def ETElem.text : ETElem → Option Str
  | ETElem.mk _ _ tx _ => tx

mutual

/-- Preorder traversal of an element, embedding the iter method of
ET.Element used by the simplified-rendering loop. -/
def iterElems : ETElem → List ETElem
  | ETElem.mk t a tx cs => ETElem.mk t a tx cs :: iterChildren cs

/-- Preorder traversal of a child list. -/
def iterChildren : List ETElem → List ETElem
  | [] => []
  | e :: es => iterElems e ++ iterChildren es

end

/-- The fragment the attribute branch of the loop body contributes. -/
def attribFrag (e : ETElem) : Option Str :=
  match e.attribRendered with
  | some r => some ((("<").data) ++ e.tag ++ ((" ").data) ++ r ++ ((">").data))
  | none => none

/-- The loop body of _generate_sql_from_xml: an element with non-blank text
contributes a tag-and-text fragment, otherwise an element with a nonempty
attribute dictionary contributes a tag-and-attributes fragment, otherwise
nothing. -/
def fragOf (e : ETElem) : Option Str :=
  match e.text with
  | some tx =>
    if (strip tx).isEmpty then attribFrag e
    else some ((("<").data) ++ e.tag ++ (("> ").data) ++ strip tx)
  | none => attribFrag e

/-- All tag and text fragments extracted from the tree, in traversal
order. -/
def simplifiedFragments (xml_root : ETElem) : List Str :=
  (iterElems xml_root).filterMap fragOf

/-- Embedding of the newline join applied to the capped fragment list. -/
def joinNL : List Str → Str
  | [] => []
  | [x] => x
  | x :: y :: ys => x ++ ("\n").data ++ joinNL (y :: ys)

/-- The simplified rendering of the parsed tree: the newline join of the
first fifty fragments. -/
def simplified_xml_representation (xml_root : ETElem) : Str :=
  joinNL ((simplifiedFragments xml_root).take 50)

/-- C9: the simplified rendering joins at most the first fifty extracted
fragments of the tree, and both prompt builders are plain string formatting
that embeds the literal input text and contains the sentences instructing
the model to emit only code, or a concise error message as the failure
marker. -/
theorem C9_prompt_builder (xml_root : ETElem) (original_xml xml_code : Str) :
    ((simplifiedFragments xml_root).take 50).length ≤ 50
  ∧ (simplifiedFragments xml_root).take 50 <+: simplifiedFragments xml_root
  ∧ simplified_xml_representation xml_root = joinNL ((simplifiedFragments xml_root).take 50)
  ∧ original_xml <:+: promptV1 original_xml
  ∧ codeOnlyV1 <:+: promptV1 original_xml
  ∧ errMarkerV1 <:+: promptV1 original_xml
  ∧ xml_code <:+: promptMain2 xml_code
  ∧ codeOnlyM2 <:+: promptMain2 xml_code
  ∧ errMarkerM2 <:+: promptMain2 xml_code := by
  refine ⟨List.length_take_le 50 _, List.take_prefix 50 _, rfl, ?_, ?_, ?_, ?_, ?_, ?_⟩
  · exact ⟨promptHead ++ promptSnipV1,
      promptMidV1 ++ codeOnlyV1 ++ nlIndent ++ errMarkerV1 ++ nlIndent,
      by simp [promptV1]⟩
  · exact ⟨promptHead ++ promptSnipV1 ++ original_xml ++ promptMidV1,
      nlIndent ++ errMarkerV1 ++ nlIndent, by simp [promptV1]⟩
  · exact ⟨promptHead ++ promptSnipV1 ++ original_xml ++ promptMidV1 ++ codeOnlyV1 ++ nlIndent,
      nlIndent, by simp [promptV1]⟩
  · exact ⟨promptHead ++ promptSnipM2,
      promptMidM2 ++ codeOnlyM2 ++ nlIndent ++ errMarkerM2 ++ nlIndent,
      by simp [promptMain2]⟩
  · exact ⟨promptHead ++ promptSnipM2 ++ xml_code ++ promptMidM2,
      nlIndent ++ errMarkerM2 ++ nlIndent, by simp [promptMain2]⟩
  · exact ⟨promptHead ++ promptSnipM2 ++ xml_code ++ promptMidM2 ++ codeOnlyM2 ++ nlIndent,
      nlIndent, by simp [promptMain2]⟩

end AdkAlteryx
